import Mathlib

/-!
Verification of the Spreedly n8n node's transport and utility layer.

The definitions below are a shallow embedding of the TypeScript sources
`src/nodes/Spreedly/transport/index.ts` and `src/nodes/Spreedly/utils/index.ts`.
JSON values are modelled by the inductive `Json`; JavaScript strings are kept
as Lean `String`s except in the key-case and Luhn codecs, where a string is
modelled as its list of UTF-16 code units (`List Nat`), matching how the
JavaScript regular expressions operate on code units.  JavaScript numbers are
modelled as rationals (`ℚ`) in the amount codec and as integers elsewhere
(the transported values are integral HTTP status codes and lengths).
-/

namespace Spreedly

/-- JSON value as handled by the node: the `IDataObject` payloads exchanged
with the Spreedly API. Object fields are an ordered association list, matching
JavaScript property order. -/
inductive Json where
  | null : Json
  | bool (b : Bool) : Json
  | num (n : Int) : Json
  | str (s : String) : Json
  | arr (elems : List Json) : Json
  | obj (fields : List (String × Json)) : Json

mutual

/-- Structural boolean equality on `Json`. -/
def Json.beq : Json → Json → Bool
  | .null, .null => true
  | .bool a, .bool b => a == b
  | .num a, .num b => a == b
  | .str a, .str b => a == b
  | .arr xs, .arr ys => Json.beqList xs ys
  | .obj fs, .obj gs => Json.beqFields fs gs
  | _, _ => false

/-- Structural boolean equality on lists of `Json`. -/
def Json.beqList : List Json → List Json → Bool
  | [], [] => true
  | x :: xs, y :: ys => Json.beq x y && Json.beqList xs ys
  | _, _ => false

/-- Structural boolean equality on `Json` object fields. -/
def Json.beqFields : List (String × Json) → List (String × Json) → Bool
  | [], [] => true
  | (k1, v1) :: fs, (k2, v2) :: gs => k1 == k2 && Json.beq v1 v2 && Json.beqFields fs gs
  | _, _ => false

end

mutual

theorem Json.beq_iff : ∀ a b : Json, Json.beq a b = true ↔ a = b
  | .null, .null => by simp [Json.beq]
  | .bool _, .bool _ => by simp [Json.beq]
  | .num _, .num _ => by simp [Json.beq]
  | .str _, .str _ => by simp [Json.beq]
  | .arr xs, .arr ys => by simp [Json.beq, Json.beqList_iff xs ys]
  | .obj fs, .obj gs => by simp [Json.beq, Json.beqFields_iff fs gs]
  | .null, .bool _ | .null, .num _ | .null, .str _ | .null, .arr _ | .null, .obj _
  | .bool _, .null | .bool _, .num _ | .bool _, .str _ | .bool _, .arr _ | .bool _, .obj _
  | .num _, .null | .num _, .bool _ | .num _, .str _ | .num _, .arr _ | .num _, .obj _
  | .str _, .null | .str _, .bool _ | .str _, .num _ | .str _, .arr _ | .str _, .obj _
  | .arr _, .null | .arr _, .bool _ | .arr _, .num _ | .arr _, .str _ | .arr _, .obj _
  | .obj _, .null | .obj _, .bool _ | .obj _, .num _ | .obj _, .str _ | .obj _, .arr _ => by
      simp [Json.beq]

theorem Json.beqList_iff : ∀ xs ys : List Json, Json.beqList xs ys = true ↔ xs = ys
  | [], [] => by simp [Json.beqList]
  | x :: xs, y :: ys => by
      simp [Json.beqList, Json.beq_iff x y, Json.beqList_iff xs ys]
  | [], _ :: _ => by simp [Json.beqList]
  | _ :: _, [] => by simp [Json.beqList]

theorem Json.beqFields_iff :
    ∀ fs gs : List (String × Json), Json.beqFields fs gs = true ↔ fs = gs
  | [], [] => by simp [Json.beqFields]
  | (_, v1) :: fs, (_, v2) :: gs => by
      simp [Json.beqFields, Json.beq_iff v1 v2, Json.beqFields_iff fs gs, and_assoc]
  | [], _ :: _ => by simp [Json.beqFields]
  | _ :: _, [] => by simp [Json.beqFields]

end

instance : DecidableEq Json := fun a b => decidable_of_iff _ (Json.beq_iff a b)

/-- First binding of `key` in an ordered field list (JavaScript property read). -/
def lookupProp : List (String × Json) → String → Option Json
  | [], _ => none
  | (k, v) :: rest, key => if k = key then some v else lookupProp rest key

/-- JavaScript property access `data[key]`: `none` models `undefined`.
Property access on a non-object yields `undefined` here; the dereferences the
node performs on non-objects never occur in the verified behaviors. -/
def getProp (data : Json) (key : String) : Option Json :=
  match data with
  | .obj fields => lookupProp fields key
  | _ => none

/-- JavaScript truthiness of a JSON value. -/
def truthy : Json → Bool
  | .null => false
  | .bool b => b
  | .num n => n != 0
  | .str s => s ≠ ""
  | .arr _ => true
  | .obj _ => true

/-- Truthiness of a possibly-`undefined` value (`none` is `undefined`, falsy). -/
def truthyOpt : Option Json → Bool
  | none => false
  | some v => truthy v

/-- JavaScript property assignment `fields[key] = v`: replaces an existing
binding in place, else appends a new one. -/
def setProp : List (String × Json) → String → Json → List (String × Json)
  | [], key, v => [(key, v)]
  | (k, w) :: rest, key, v =>
      if k = key then (key, v) :: rest else (k, w) :: setProp rest key v

/-- Optional chaining `v?.f`: short-circuits to `undefined` when `v` is
nullish (`undefined` or `null`), else applies the access. -/
def optChain (v : Option Json) (access : Json → Option Json) : Option Json :=
  match v with
  | none => none
  | some .null => none
  | some j => access j

/-- JavaScript `v.length` as read by `responseData[propertyName]?.length`:
strings and arrays expose their length, plain objects expose a `length`
property if they have one, and other values have no such property. -/
def jsLengthProp : Json → Option Json
  | .str s => some (.num s.length)
  | .arr xs => some (.num xs.length)
  | .obj fields => lookupProp fields "length"
  | _ => none

/-- The pagination loop guard `responseData[propertyName]?.length === 20`. -/
def lengthIsTwenty (v : Option Json) : Bool :=
  decide (optChain v jsLengthProp = some (.num 20))

mutual

/-- JavaScript string coercion of a value, as used by template literals. -/
def jsToString : Json → String
  | .str s => s
  | .num n => toString n
  | .bool b => if b then "true" else "false"
  | .null => "null"
  | .obj _ => "[object Object]"
  | .arr xs => String.intercalate "," (jsToStringElems xs)

/-- Element coercion for `Array.prototype.toString` (`null` renders empty). -/
def jsToStringElems : List Json → List String
  | [] => []
  | .null :: rest => "" :: jsToStringElems rest
  | v :: rest => jsToString v :: jsToStringElems rest

end

/-- Fixed API origin from `src/nodes/Spreedly/constants/index.ts`. -/
def SPREEDLY_API_BASE_URL : String := "https://core.spreedly.com/v1"

/-- Credential supplied by the host (`getCredentials('spreedlyApi')`). -/
structure SpreedlyCredentials where
  environmentKey : String
  accessSecret : String
deriving DecidableEq

/-- The `IHttpRequestOptions` record assembled by `spreedlyApiRequest`, with
the fixed headers flattened into named fields.  `body`/`qs` are `none` when
the corresponding field is never assigned on the options object. -/
structure HttpRequestOptions where
  method : String
  url : String
  contentTypeHeader : String
  acceptHeader : String
  authUsername : String
  authPassword : String
  json : Bool
  body : Option (List (String × Json))
  qs : Option (List (String × Json))
deriving DecidableEq

/-- Request construction of `spreedlyApiRequest` (transport/index.ts, lines
30-50): fixed URL prefix, JSON headers, basic auth from the credential, and
`body`/`qs` attached only when `Object.keys(...)` is non-empty. -/
def buildRequestOptions (credentials : SpreedlyCredentials) (method : String)
    (endpoint : String) (body query : List (String × Json)) : HttpRequestOptions :=
  let base : HttpRequestOptions :=
    { method := method
      url := SPREEDLY_API_BASE_URL ++ endpoint
      contentTypeHeader := "application/json"
      acceptHeader := "application/json"
      authUsername := credentials.environmentKey
      authPassword := credentials.accessSecret
      json := true
      body := none
      qs := none }
  let withBody := if body.length > 0 then { base with body := some body } else base
  if query.length > 0 then { withBody with qs := some query } else withBody

/-- The `error.response` object of a failed transport call. -/
structure SpreedlyErrorResponse where
  body : Option Json
  statusCode : Option Int
deriving DecidableEq

/-- An error thrown by the host's `httpRequest` helper. -/
structure TransportError where
  response : Option SpreedlyErrorResponse
  message : String
deriving DecidableEq

/-- What `spreedlyApiRequest`'s catch block throws: either the original
transport error re-thrown unchanged, or a `NodeApiError` built from the
response (only its `message`/`httpCode` options are modelled). -/
inductive RequestFailure where
  | rethrown (error : TransportError)
  | nodeApiError (message : String) (httpCode : Option String)
deriving DecidableEq

/-- The chain `error.response.body?.errors?.[0]?.message`. `[0]` on an array
reads its head; on a plain object it reads a `"0"` property; on a string it
reads the first character. -/
def errorsFirstMessage (body : Option Json) : Option Json :=
  optChain
    (optChain (optChain body (fun b => getProp b "errors"))
      (fun e =>
        match e with
        | .arr xs => xs.head?
        | .obj fields => lookupProp fields "0"
        | .str s => if s = "" then none else some (.str (s.take 1))
        | _ => none))
    (fun m => getProp m "message")

/-- The chain `error.response.body?.message`. -/
def bodyMessage (body : Option Json) : Option Json :=
  optChain body (fun b => getProp b "message")

/-- JavaScript `a || b` where `a` may be `undefined` and `b` is defined. -/
def jsOrElse (a : Option Json) (b : Json) : Json :=
  match a with
  | some v => if truthy v then v else b
  | none => b

/-- Catch block of `spreedlyApiRequest` (transport/index.ts, lines 55-66):
with a response present, throw a `NodeApiError` whose message prepends
`"Spreedly API Error: "` to the extracted text and whose `httpCode` is
`statusCode?.toString()`; with no response, re-throw the original error. -/
def handleRequestError (error : TransportError) : RequestFailure :=
  match error.response with
  | some resp =>
      let errorMessage : Json :=
        jsOrElse (errorsFirstMessage resp.body)
          (jsOrElse (bodyMessage resp.body) (.str error.message))
      .nodeApiError ("Spreedly API Error: " ++ jsToString errorMessage)
        (resp.statusCode.map (fun n => toString n))
  | none => .rethrown error

/-- Observable outcome of one `spreedlyApiRequestAllItems` run: the
accumulated `returnData`, the query object passed to each executor call (in
call order), and the final value of the `sinceToken` variable. -/
structure CollectResult where
  items : List Json
  queries : List (List (String × Json))
  finalCursor : Option Json
deriving DecidableEq

/-- Loop header of `spreedlyApiRequestAllItems` (transport/index.ts, lines
86-89): `const paginatedQuery = { ...query }` followed by
`if (sinceToken) paginatedQuery.since_token = sinceToken`. -/
def buildPaginatedQuery (query : List (String × Json)) (sinceToken : Option Json) :
    List (String × Json) :=
  match sinceToken with
  | some t => if truthy t then setProp query "since_token" t else query
  | none => query

/-- Body of the do/while loop of `spreedlyApiRequestAllItems` (transport/
index.ts, lines 85-105).  The executor is abstracted as the sequence of
responses it returns (`exec n` is the response to the `n`-th call); `fuel`
bounds the number of iterations evaluated, with `none` meaning the loop was
still running when the bound ran out. -/
def spreedlyApiRequestAllItemsAux (exec : Nat → Json) (propertyName : String)
    (query : List (String × Json)) :
    Nat → Nat → List Json → List (List (String × Json)) → Option Json →
      Option CollectResult
  | 0, _, _, _, _ => none
  | fuel + 1, callIdx, acc, queries, sinceToken =>
      let paginatedQuery := buildPaginatedQuery query sinceToken
      let responseData := exec callIdx
      let items := getProp responseData propertyName
      let stepped : List Json × Option Json :=
        match items with
        | some (.arr elems) =>
            (acc ++ elems,
             if elems.length > 0 then
               elems.getLast?.bind (fun last => getProp last "token")
             else sinceToken)
        | _ => (acc, sinceToken)
      if lengthIsTwenty items then
        spreedlyApiRequestAllItemsAux exec propertyName query fuel (callIdx + 1)
          stepped.1 (queries ++ [paginatedQuery]) stepped.2
      else
        some ⟨stepped.1, queries ++ [paginatedQuery], stepped.2⟩

/-- Paginated Collector `spreedlyApiRequestAllItems` (transport/index.ts,
lines 72-107): starts with no cursor and empty `returnData` and loops while
the just-fetched page's length is exactly 20. -/
def spreedlyApiRequestAllItems (exec : Nat → Json) (propertyName : String)
    (query : List (String × Json)) (fuel : Nat) : Option CollectResult :=
  spreedlyApiRequestAllItemsAux exec propertyName query fuel 0 [] [] none

/-- Amount Codec `formatAmountInCents` (transport/index.ts, lines 112-114):
`Math.round(amount * 100)`, with the JavaScript number modelled as a rational
and `Math.round x = ⌊x + 1/2⌋`. -/
def formatAmountInCents (amount : ℚ) : ℤ := ⌊amount * 100 + 1 / 2⌋

/-- Amount Codec `formatCentsToAmount` (transport/index.ts, lines 119-121). -/
def formatCentsToAmount (cents : ℤ) : ℚ := cents / 100

/-- Response Unwrapper `simplifyResponse` (utils/index.ts, lines 26-32):
`if (data[type]) return data[type]; return data`. -/
def simplifyResponse (data : Json) (type : String) : Json :=
  match getProp data type with
  | some v => if truthy v then v else data
  | none => data

/-- UTF-16 code units of a string literal, for stating concrete instances of
the code-unit level codecs (all literals used are ASCII). -/
def codes (s : String) : List Nat := s.toList.map Char.toNat

/-- Key-Case Codec `camelToSnake` (utils/index.ts, lines 179-181):
`str.replace(/[A-Z]/g, letter => '_' + letter.toLowerCase())` over the
string's code units (95 is `_`; 65-90 are `A`-`Z`, lowercased by adding 32). -/
def camelToSnake : List Nat → List Nat
  | [] => []
  | c :: rest =>
      (if 65 ≤ c ∧ c ≤ 90 then [95, c + 32] else [c]) ++ camelToSnake rest

/-- Key-Case Codec `snakeToCamel` (utils/index.ts, lines 172-174):
`str.replace(/_([a-z])/g, (_, letter) => letter.toUpperCase())`, scanning
left to right for an underscore followed by a lowercase letter (97-122),
which is uppercased by subtracting 32. -/
def snakeToCamel : List Nat → List Nat
  | [] => []
  | [c] => [c]
  | c1 :: c2 :: rest =>
      if c1 = 95 ∧ 97 ≤ c2 ∧ c2 ≤ 122 then (c2 - 32) :: snakeToCamel rest
      else c1 :: snakeToCamel (c2 :: rest)

/-- Digit extraction of `isValidCreditCardNumber` (utils/index.ts, line 55):
`cardNumber.replace(/\D/g, '')` keeps the digit code units (48-57), and the
later `parseInt(digits[i], 10)` reads each one's numeric value. -/
def luhnDigits (cardNumber : List Nat) : List Nat :=
  (cardNumber.filter (fun c => decide (48 ≤ c ∧ c ≤ 57))).map (fun c => c - 48)

/-- Summation loop of `isValidCreditCardNumber` (utils/index.ts, lines 59-75)
applied to the digit list reversed: the loop walks `i` from the last digit
down to the first with `isEven` starting `false` and toggling each step. -/
def luhnLoop : List Nat → Bool → Nat
  | [], _ => 0
  | d :: rest, isEven =>
      (if isEven then (if d * 2 > 9 then d * 2 - 9 else d * 2) else d) +
        luhnLoop rest (!isEven)

/-- Luhn validator `isValidCreditCardNumber` (utils/index.ts, lines 54-78). -/
def isValidCreditCardNumber (cardNumber : List Nat) : Bool :=
  let digits := luhnDigits cardNumber
  if digits.length < 13 ∨ digits.length > 19 then false
  else luhnLoop digits.reverse false % 10 == 0

/-- Luhn checksum as described independently of the loop: reading the digits
from the right, keep the first, double the second (subtracting 9 from a
doubled digit above 9), and so on alternately, then sum. The argument is the
digit list already reversed (rightmost digit first). -/
def luhnChecksumRev : List Nat → Nat
  | [] => 0
  | [d] => d
  | d1 :: d2 :: rest =>
      d1 + (if d2 * 2 > 9 then d2 * 2 - 9 else d2 * 2) + luhnChecksumRev rest

theorem luhnLoop_eq_checksumRev : ∀ l : List Nat, luhnLoop l false = luhnChecksumRev l
  | [] => rfl
  | [_] => by simp [luhnLoop, luhnChecksumRev]
  | d1 :: d2 :: rest => by
      simp [luhnLoop, luhnChecksumRev, luhnLoop_eq_checksumRev rest, Nat.add_assoc]

/- Concrete inputs used by the claim instances below. -/

/-- Token of the `n`-th item in the concrete pagination run. -/
def sampleToken (n : Nat) : Json := Json.str ("t" ++ toString n)

/-- The `n`-th item of the concrete pagination run. -/
def sampleItem (n : Nat) : Json := Json.obj [("token", sampleToken n)]

/-- First page of the concrete run: 20 items. -/
def samplePage0 : List Json := (List.range 20).map sampleItem

/-- Second page of the concrete run: 20 items. -/
def samplePage1 : List Json := (List.range 20).map (fun n => sampleItem (20 + n))

/-- Third page of the concrete run: 7 items. -/
def samplePage2 : List Json := (List.range 7).map (fun n => sampleItem (40 + n))

/-- A further full page that the executor would serve on a fourth call. -/
def samplePage3 : List Json := (List.range 20).map (fun n => sampleItem (100 + n))

/-- Executor returning pages of sizes 20, 20, 7 on the first three calls and
a full page on any later call (so stopping is observable). -/
def sampleExec (n : Nat) : Json :=
  if n = 0 then Json.obj [("transactions", Json.arr samplePage0)]
  else if n = 1 then Json.obj [("transactions", Json.arr samplePage1)]
  else if n = 2 then Json.obj [("transactions", Json.arr samplePage2)]
  else Json.obj [("transactions", Json.arr samplePage3)]

/-- A response whose `transactions` value is a 20-character string: not an
array, but its `length` is 20. -/
def nonArrayPageResponse : Json :=
  Json.obj [("transactions", Json.str "aaaaaaaaaaaaaaaaaaaa")]

/-- Executor constantly returning `nonArrayPageResponse`. -/
def nonArrayExec (_ : Nat) : Json := nonArrayPageResponse

/-- Executor constantly returning a response whose `transactions` value is
the number 5 (no `length`, so the loop guard is false). -/
def numberPageExec (_ : Nat) : Json := Json.obj [("transactions", Json.num 5)]

/-- Executor constantly returning a single empty page. -/
def emptyPageExec (_ : Nat) : Json := Json.obj [("transactions", Json.arr [])]

/-- The HTTP 422 failure of the spec's example: response body
`{ errors: [{ message: "Invalid token" }] }` and status 422. -/
def invalidTokenError : TransportError :=
  { response := some
      { body := some (Json.obj
          [("errors", Json.arr [Json.obj [("message", Json.str "Invalid token")]])])
        statusCode := some 422 }
    message := "Request failed with status code 422" }

/-- A transport failure with no response attached. -/
def networkFailure : TransportError :=
  { response := none, message := "getaddrinfo ENOTFOUND core.spreedly.com" }

/-- C4: a Request Descriptor with an empty body mapping yields an outgoing
request with no body field at all, and an empty query mapping yields no query
field; a non-empty body or query is attached as given. -/
theorem executor_body_query_attachment (credentials : SpreedlyCredentials)
    (method endpoint : String) (body query : List (String × Json)) :
    ((buildRequestOptions credentials method endpoint body query).body =
        if body = [] then none else some body) ∧
    ((buildRequestOptions credentials method endpoint body query).qs =
        if query = [] then none else some query) := by
  cases body <;> cases query <;> simp [buildRequestOptions]

/-- C5: a transport failure that carries no response is re-thrown as the
original error value, with no enrichment or rewriting. -/
theorem executor_network_failure_rethrow (error : TransportError)
    (h : error.response = none) :
    handleRequestError error = .rethrown error := by
  simp [handleRequestError, h]

/-- Witness for C5 at a concrete response-less failure. -/
theorem executor_network_failure_rethrow_witness :
    networkFailure.response = none ∧
    handleRequestError networkFailure = .rethrown networkFailure :=
  ⟨rfl, executor_network_failure_rethrow networkFailure rfl⟩

/-- C6 counterexample: for the envelope `{ transaction: null }` the key
`transaction` is present, yet `simplifyResponse` returns the envelope rather
than the value at the key, because the code tests truthiness, not presence. -/
theorem unwrapper_presence_cex :
    getProp (Json.obj [("transaction", Json.null)]) "transaction" = some Json.null ∧
    simplifyResponse (Json.obj [("transaction", Json.null)]) "transaction" =
      Json.obj [("transaction", Json.null)] ∧
    Json.obj [("transaction", Json.null)] ≠ Json.null := by decide

/-- C6 as amended: the Response Unwrapper returns the value at the key when
it is present with a truthy value, and returns the envelope unchanged when
the key is absent or its value is falsy; it is total and never fails. -/
theorem unwrapper_truthy_extraction (e : Json) (k : String) :
    (∀ v, getProp e k = some v → truthy v = true → simplifyResponse e k = v) ∧
    (∀ v, getProp e k = some v → truthy v = false → simplifyResponse e k = e) ∧
    (getProp e k = none → simplifyResponse e k = e) := by
  refine ⟨fun v hv htr => ?_, fun v hv htr => ?_, fun hv => ?_⟩
  · simp [simplifyResponse, hv, htr]
  · simp [simplifyResponse, hv, htr]
  · simp [simplifyResponse, hv]

/-- Witness for C6 on the spec's two example envelopes. -/
theorem unwrapper_truthy_extraction_witness :
    simplifyResponse (Json.obj [("transaction", Json.obj [("token", Json.str "T1")])])
        "transaction" = Json.obj [("token", Json.str "T1")] ∧
    simplifyResponse (Json.obj [("token", Json.str "T1")]) "transaction" =
      Json.obj [("token", Json.str "T1")] :=
  ⟨(unwrapper_truthy_extraction
        (Json.obj [("transaction", Json.obj [("token", Json.str "T1")])]) "transaction").1
      (Json.obj [("token", Json.str "T1")]) (by decide) (by decide),
   (unwrapper_truthy_extraction (Json.obj [("token", Json.str "T1")]) "transaction").2.2
      (by decide)⟩

/-- C7: on amounts with at most two fractional digits the Amount Codec round
trip is the identity, and `toMinorUnits (10.999) = 1100`. -/
theorem amount_codec_round_trip :
    (∀ a : ℚ, (∃ n : ℤ, a * 100 = n) → 1 / 100 ≤ a →
        formatCentsToAmount (formatAmountInCents a) = a) ∧
    formatAmountInCents (10999 / 1000) = 1100 := by
  constructor
  · rintro a ⟨n, hn⟩ _
    have hfloor : formatAmountInCents a = n := by
      have harg : a * 100 + 1 / 2 = (n : ℚ) + 1 / 2 := by rw [hn]
      rw [formatAmountInCents, harg, Int.floor_int_add]
      norm_num
    rw [hfloor]
    simp only [formatCentsToAmount]
    have : (100 : ℚ) ≠ 0 := by norm_num
    field_simp
    linarith [hn]
  · norm_num [formatAmountInCents, Int.floor_eq_iff]

/-- Witness for C7 at the two-decimal amount 0.29. -/
theorem amount_codec_round_trip_witness :
    formatCentsToAmount (formatAmountInCents (29 / 100)) = 29 / 100 :=
  amount_codec_round_trip.1 (29 / 100) ⟨29, by norm_num⟩ (by norm_num)

/-- C2 counterexample: on the spec's 422 example the thrown error's message
is `"Spreedly API Error: Invalid token"`, not the bare `"Invalid token"`
stated by the claim, and the status is carried as the string `"422"`. -/
theorem executor_error_message_cex :
    handleRequestError invalidTokenError =
      RequestFailure.nodeApiError "Spreedly API Error: Invalid token" (some "422") ∧
    "Spreedly API Error: Invalid token" ≠ "Invalid token" := by decide

/-- C2 as amended: for a transport failure carrying a response, the thrown
error's message is `"Spreedly API Error: "` followed by, in priority order,
`errors[0].message` from the response body, else the body's `message`, else
the transport error's own message, and its `httpCode` is the HTTP status
rendered as a decimal string. -/
theorem executor_error_translation (error : TransportError)
    (resp : SpreedlyErrorResponse) (h : error.response = some resp) :
    (∀ m, errorsFirstMessage resp.body = some m → truthy m = true →
        handleRequestError error =
          .nodeApiError ("Spreedly API Error: " ++ jsToString m)
            (resp.statusCode.map (fun n => toString n))) ∧
    (truthyOpt (errorsFirstMessage resp.body) = false →
      ∀ m, bodyMessage resp.body = some m → truthy m = true →
        handleRequestError error =
          .nodeApiError ("Spreedly API Error: " ++ jsToString m)
            (resp.statusCode.map (fun n => toString n))) ∧
    (truthyOpt (errorsFirstMessage resp.body) = false →
      truthyOpt (bodyMessage resp.body) = false →
      handleRequestError error =
        .nodeApiError ("Spreedly API Error: " ++ error.message)
          (resp.statusCode.map (fun n => toString n))) := by
  refine ⟨fun m hm htr => ?_, fun hfirst m hm htr => ?_, fun hfirst hsecond => ?_⟩
  · simp [handleRequestError, h, jsOrElse, hm, htr]
  · rcases h1 : errorsFirstMessage resp.body with _ | v1
    · simp [handleRequestError, h, jsOrElse, h1, hm, htr]
    · have hv1 : truthy v1 = false := by
        simpa [truthyOpt, h1] using hfirst
      simp [handleRequestError, h, jsOrElse, h1, hv1, hm, htr]
  · rcases h1 : errorsFirstMessage resp.body with _ | v1 <;>
      rcases h2 : bodyMessage resp.body with _ | v2 <;>
      [skip; skip; skip; skip] <;>
      simp_all [handleRequestError, h, jsOrElse, truthyOpt, jsToString]

/-- Witness for C2 at the 422 example: message and status come out as the
amended claim states. -/
theorem executor_error_translation_witness :
    handleRequestError invalidTokenError =
      RequestFailure.nodeApiError "Spreedly API Error: Invalid token" (some "422") := by
  have happ :=
    (executor_error_translation invalidTokenError
        { body := some (Json.obj
            [("errors", Json.arr [Json.obj [("message", Json.str "Invalid token")]])])
          statusCode := some 422 } rfl).1
      (Json.str "Invalid token") (by decide) (by decide)
  exact happ

/-- C3 counterexample: when the value at `propertyName` is a 20-character
string (not an array), the Collector appends nothing but does not terminate:
the loop guard `responseData[propertyName]?.length === 20` is still true, so
after 10 fueled iterations the loop is still running. -/
theorem collector_nonarray_page_cex :
    getProp nonArrayPageResponse "transactions" =
      some (Json.str "aaaaaaaaaaaaaaaaaaaa") ∧
    lengthIsTwenty (getProp nonArrayPageResponse "transactions") = true ∧
    spreedlyApiRequestAllItems nonArrayExec "transactions" [] 10 = none := by
  decide

/-- C3 as amended: when the value at `propertyName` is absent or not an
array, the Collector appends nothing and raises no error; it terminates the
loop right after that page provided the value's JavaScript `length` is not
exactly 20 (in particular always for an absent value), whereas a non-array
value whose `length` is 20 keeps the loop running. -/
theorem collector_nonarray_page_stops (exec : Nat → Json) (propertyName : String)
    (query : List (String × Json)) (fuel callIdx : Nat) (acc : List Json)
    (queries : List (List (String × Json))) (sinceToken : Option Json)
    (hna : ∀ elems, getProp (exec callIdx) propertyName ≠ some (Json.arr elems))
    (hlen : lengthIsTwenty (getProp (exec callIdx) propertyName) = false) :
    spreedlyApiRequestAllItemsAux exec propertyName query (fuel + 1) callIdx acc
        queries sinceToken =
      some ⟨acc, queries ++ [buildPaginatedQuery query sinceToken], sinceToken⟩ := by
  rcases hv : getProp (exec callIdx) propertyName with _ | v
  · rw [hv] at hlen
    simp [spreedlyApiRequestAllItemsAux, hv, hlen]
  · rw [hv] at hlen
    cases v with
    | arr elems => exact absurd hv (hna elems)
    | null => simp [spreedlyApiRequestAllItemsAux, hv, hlen]
    | bool b => simp [spreedlyApiRequestAllItemsAux, hv, hlen]
    | num n => simp [spreedlyApiRequestAllItemsAux, hv, hlen]
    | str s => simp [spreedlyApiRequestAllItemsAux, hv, hlen]
    | obj fields => simp [spreedlyApiRequestAllItemsAux, hv, hlen]

/-- Witness for C3: a response with `transactions: 5` terminates the run at
once, returning the items accumulated so far (none here). -/
theorem collector_nonarray_page_stops_witness :
    lengthIsTwenty (getProp (numberPageExec 0) "transactions") = false ∧
    spreedlyApiRequestAllItemsAux numberPageExec "transactions" [] 1 0 [] [] none =
      some ⟨[], [[]], none⟩ :=
  ⟨by decide,
   collector_nonarray_page_stops numberPageExec "transactions" [] 0 0 [] [] none
     (fun elems h => Json.noConfusion (Option.some.inj h)) (by decide)⟩

/-- Every successful run's issued queries start from the given loop state's
query and all stem from `buildPaginatedQuery` applied to the caller's
original query mapping, never to a mutated one. -/
theorem collector_queries_shape (exec : Nat → Json) (propertyName : String)
    (query : List (String × Json)) :
    ∀ (fuel callIdx : Nat) (acc : List Json)
      (queries : List (List (String × Json))) (sinceToken : Option Json)
      (r : CollectResult),
      spreedlyApiRequestAllItemsAux exec propertyName query fuel callIdx acc queries
          sinceToken = some r →
      ∃ rest, r.queries = queries ++ buildPaginatedQuery query sinceToken :: rest ∧
        ∀ qu ∈ rest, ∃ st, qu = buildPaginatedQuery query st := by
  intro fuel
  induction fuel with
  | zero =>
      intro callIdx acc queries sinceToken r h
      simp [spreedlyApiRequestAllItemsAux] at h
  | succ n ih =>
      intro callIdx acc queries sinceToken r h
      rw [spreedlyApiRequestAllItemsAux] at h
      set stepped :=
        (match getProp (exec callIdx) propertyName with
          | some (.arr elems) =>
              (acc ++ elems,
               if elems.length > 0 then
                 elems.getLast?.bind (fun last => getProp last "token")
               else sinceToken)
          | _ => (acc, sinceToken) : List Json × Option Json) with hstepped
      by_cases hc : lengthIsTwenty (getProp (exec callIdx) propertyName) = true
      · rw [if_pos hc] at h
        obtain ⟨rest', hq, hrest'⟩ := ih (callIdx + 1) stepped.1
          (queries ++ [buildPaginatedQuery query sinceToken]) stepped.2 r h
        refine ⟨buildPaginatedQuery query stepped.2 :: rest', ?_, ?_⟩
        · simpa using hq
        · intro qu hqu
          rcases List.mem_cons.mp hqu with hqu | hqu
          · exact ⟨stepped.2, hqu⟩
          · exact hrest' qu hqu
      · rw [if_neg hc] at h
        refine ⟨[], ?_, by simp⟩
        rw [← Option.some.inj h]

/-- C10 counterexample: a caller-supplied query that already contains
`since_token` is sent verbatim on the first request, so the first request of
that collection does carry a `since_token` parameter. -/
theorem collector_first_request_cex :
    (spreedlyApiRequestAllItems emptyPageExec "transactions"
        [("since_token", Json.str "X")] 5).map CollectResult.queries =
      some [[("since_token", Json.str "X")]] ∧
    lookupProp [("since_token", Json.str "X")] "since_token" =
      some (Json.str "X") := by
  decide

/-- C10 as amended: the Collector derives every issued query from the
caller-supplied query mapping, never from a mutated one: the first request's
query is exactly the caller's query (so it carries no `since_token` unless
the caller's query already contained one), and every issued query is either
the caller's query or a fresh copy of it with `since_token` set. -/
theorem collector_query_provenance (exec : Nat → Json) (propertyName : String)
    (query : List (String × Json)) (fuel : Nat) (r : CollectResult)
    (h : spreedlyApiRequestAllItems exec propertyName query fuel = some r) :
    r.queries.head? = some query ∧
      ∀ qu ∈ r.queries,
        qu = query ∨ ∃ t, truthy t = true ∧ qu = setProp query "since_token" t := by
  obtain ⟨rest, hq, hrest⟩ :=
    collector_queries_shape exec propertyName query fuel 0 [] [] none r h
  have hq' : r.queries = query :: rest := by simpa [buildPaginatedQuery] using hq
  constructor
  · rw [hq']
    rfl
  · intro qu hqu
    rw [hq'] at hqu
    rcases List.mem_cons.mp hqu with hqu | hqu
    · exact Or.inl hqu
    · obtain ⟨st, hst⟩ := hrest qu hqu
      cases st with
      | none => exact Or.inl (by simpa [buildPaginatedQuery] using hst)
      | some t =>
          by_cases ht : truthy t = true
          · exact Or.inr ⟨t, ht, by simpa [buildPaginatedQuery, ht] using hst⟩
          · have ht' : truthy t = false := by
              cases htv : truthy t
              · rfl
              · exact absurd htv ht
            exact Or.inl (by simpa [buildPaginatedQuery, ht'] using hst)

/-- Witness for C10 on a concrete one-page run with a cursor-free query. -/
theorem collector_query_provenance_witness :
    (spreedlyApiRequestAllItems emptyPageExec "transactions"
        [("order", Json.str "desc")] 5).map (fun r => r.queries.head?) =
      some (some [("order", Json.str "desc")]) := by
  have h := (collector_query_provenance emptyPageExec "transactions"
      [("order", Json.str "desc")] 5 ⟨[], [[("order", Json.str "desc")]], none⟩
      (by decide)).1
  rw [show spreedlyApiRequestAllItems emptyPageExec "transactions"
      [("order", Json.str "desc")] 5 =
      some ⟨[], [[("order", Json.str "desc")]], none⟩ from by decide]
  exact congrArg some h

/-- C1: when the executor serves pages of sizes 20, 20 and 7 on its first
three calls, the Collector returns the 47 items concatenated in server order
after exactly 3 calls (the executor is unconstrained from the fourth call on,
so no fourth call is consumed), each non-empty page sets the cursor to its
last element's `token` (visible in the second and third issued queries and in
the final cursor), and the run terminates right after the page of length 7. -/
theorem collector_three_pages (exec : Nat → Json) (propertyName : String)
    (query : List (String × Json)) (p0 p1 p2 : List Json) (l0 l1 l2 t0 t1 t2 : Json)
    (fuel : Nat)
    (hp0 : p0.length = 20) (hp1 : p1.length = 20) (hp2 : p2.length = 7)
    (he0 : exec 0 = Json.obj [(propertyName, Json.arr p0)])
    (he1 : exec 1 = Json.obj [(propertyName, Json.arr p1)])
    (he2 : exec 2 = Json.obj [(propertyName, Json.arr p2)])
    (hl0 : p0.getLast? = some l0) (ht0 : getProp l0 "token" = some t0)
    (htr0 : truthy t0 = true)
    (hl1 : p1.getLast? = some l1) (ht1 : getProp l1 "token" = some t1)
    (htr1 : truthy t1 = true)
    (hl2 : p2.getLast? = some l2) (ht2 : getProp l2 "token" = some t2) :
    spreedlyApiRequestAllItems exec propertyName query (fuel + 3) =
      some ⟨p0 ++ p1 ++ p2,
            [query, setProp query "since_token" t0, setProp query "since_token" t1],
            some t2⟩ := by
  have g0 : getProp (Json.obj [(propertyName, Json.arr p0)]) propertyName =
      some (Json.arr p0) := by simp [getProp, lookupProp]
  have g1 : getProp (Json.obj [(propertyName, Json.arr p1)]) propertyName =
      some (Json.arr p1) := by simp [getProp, lookupProp]
  have g2 : getProp (Json.obj [(propertyName, Json.arr p2)]) propertyName =
      some (Json.arr p2) := by simp [getProp, lookupProp]
  rw [show fuel + 3 = fuel + 2 + 1 from rfl]
  simp only [spreedlyApiRequestAllItems]
  rw [spreedlyApiRequestAllItemsAux]
  simp [he0, g0, lengthIsTwenty, optChain, jsLengthProp, hp0, hl0,
    ht0, htr0, buildPaginatedQuery]
  rw [show fuel + 2 = fuel + 1 + 1 from rfl]
  rw [spreedlyApiRequestAllItemsAux]
  simp [he1, g1, lengthIsTwenty, optChain, jsLengthProp, hp1, hl1,
    ht1, htr1, buildPaginatedQuery, htr0]
  rw [spreedlyApiRequestAllItemsAux]
  simp [he2, g2, lengthIsTwenty, optChain, jsLengthProp, hp2, hl2,
    ht2, buildPaginatedQuery, htr1]

/-- Witness for C1 on the concrete 47-item run served by `sampleExec`. -/
theorem collector_three_pages_witness :
    samplePage0.length = 20 ∧ samplePage1.length = 20 ∧ samplePage2.length = 7 ∧
    (samplePage0 ++ samplePage1 ++ samplePage2).length = 47 ∧
    spreedlyApiRequestAllItems sampleExec "transactions" [] 3 =
      some ⟨samplePage0 ++ samplePage1 ++ samplePage2,
            [[], setProp [] "since_token" (sampleToken 19),
             setProp [] "since_token" (sampleToken 39)],
            some (sampleToken 46)⟩ :=
  ⟨by decide, by decide, by decide, by decide,
   collector_three_pages sampleExec "transactions" [] samplePage0 samplePage1 samplePage2
     (sampleItem 19) (sampleItem 39) (sampleItem 46)
     (sampleToken 19) (sampleToken 39) (sampleToken 46) 0
     (by decide) (by decide) (by decide) (by decide) (by decide) (by decide)
     (by decide) (by decide) (by decide) (by decide) (by decide) (by decide)
     (by decide) (by decide)⟩

theorem snakeToCamel_cons_ne (c : Nat) (rest : List Nat) (hc : c ≠ 95) :
    snakeToCamel (c :: rest) = c :: snakeToCamel rest := by
  cases rest with
  | nil => rfl
  | cons c2 tail => simp [snakeToCamel, hc]

/-- C8 counterexample: for the identifier `payment_method_token`, made of
lowercase letters and underscores, the round trip `toCamel (toSnake k)`
yields `paymentMethodToken`, not `k` itself. -/
theorem keycase_round_trip_cex :
    snakeToCamel (camelToSnake (codes "payment_method_token")) =
      codes "paymentMethodToken" ∧
    codes "paymentMethodToken" ≠ codes "payment_method_token" := by decide

/-- C8 as amended: the round trip `toCamel (toSnake k) = k` holds for
identifier strings made only of ASCII letters (camelCase boundaries allowed,
underscores excluded, since `toSnake` leaves an underscore in place and
`toCamel` then consumes it); the named pair still converts each way:
`snakeToCamel` sends `payment_method_token` to `paymentMethodToken` and
`camelToSnake` sends `paymentMethodToken` to `payment_method_token`. -/
theorem keycase_letters_round_trip (s : List Nat)
    (h : ∀ c ∈ s, (65 ≤ c ∧ c ≤ 90) ∨ (97 ≤ c ∧ c ≤ 122)) :
    snakeToCamel (camelToSnake s) = s ∧
    snakeToCamel (codes "payment_method_token") = codes "paymentMethodToken" ∧
    camelToSnake (codes "paymentMethodToken") = codes "payment_method_token" := by
  refine ⟨?_, by decide, by decide⟩
  induction s with
  | nil => rfl
  | cons c rest ih =>
      have hrest : snakeToCamel (camelToSnake rest) = rest :=
        ih (fun x hx => h x (List.mem_cons_of_mem c hx))
      rcases h c (List.mem_cons_self c rest) with ⟨h1, h2⟩ | ⟨h1, h2⟩
      · rw [camelToSnake, if_pos ⟨h1, h2⟩]
        show snakeToCamel (95 :: (c + 32) :: camelToSnake rest) = c :: rest
        rw [snakeToCamel, if_pos ⟨rfl, by omega, by omega⟩,
          show c + 32 - 32 = c from by omega, hrest]
      · rw [camelToSnake, if_neg (by omega : ¬(65 ≤ c ∧ c ≤ 90))]
        show snakeToCamel (c :: camelToSnake rest) = c :: rest
        rw [snakeToCamel_cons_ne c _ (by omega), hrest]

/-- Witness for C8 at the all-letter identifier `paymentMethodToken`. -/
theorem keycase_letters_round_trip_witness :
    snakeToCamel (camelToSnake (codes "paymentMethodToken")) =
      codes "paymentMethodToken" :=
  (keycase_letters_round_trip (codes "paymentMethodToken") (by decide)).1

/-- C9: the Luhn validator strips non-digit code units, rejects digit counts
outside 13-19, and otherwise accepts exactly when the checksum that doubles
every second digit from the right (subtracting 9 from doubled digits above
9) sums to a multiple of 10. -/
theorem luhn_validator_spec (cardNumber : List Nat) :
    ((luhnDigits cardNumber).length < 13 ∨ (luhnDigits cardNumber).length > 19 →
        isValidCreditCardNumber cardNumber = false) ∧
    (13 ≤ (luhnDigits cardNumber).length ∧ (luhnDigits cardNumber).length ≤ 19 →
        (isValidCreditCardNumber cardNumber = true ↔
          luhnChecksumRev (luhnDigits cardNumber).reverse % 10 = 0)) := by
  constructor
  · intro h
    simp only [isValidCreditCardNumber]
    rw [if_pos h]
  · intro h
    simp only [isValidCreditCardNumber]
    rw [if_neg (by omega :
        ¬((luhnDigits cardNumber).length < 13 ∨ (luhnDigits cardNumber).length > 19))]
    rw [luhnLoop_eq_checksumRev]
    simp

/-- Witness for C9 on a 16-digit card number containing spaces. -/
theorem luhn_validator_spec_witness :
    (13 ≤ (luhnDigits (codes "4111 1111 1111 1111")).length ∧
      (luhnDigits (codes "4111 1111 1111 1111")).length ≤ 19) ∧
    isValidCreditCardNumber (codes "4111 1111 1111 1111") = true :=
  ⟨by decide,
   ((luhn_validator_spec (codes "4111 1111 1111 1111")).2 (by decide)).mpr (by decide)⟩
